import Mathlib

/-!
Verification of the DZK-BACNET zone-control translation layer
(src/accessories/dzk-bacnet.ts of the bachome homebridge plugin).

The TypeScript source is shallowly embedded: pure computations become Lean
functions over ℚ/Int/String; asynchronous network reads and writes are
modelled by passing the transport outcome (`Except TransportError _`) as an
explicit argument, and the request a method issues to the transport is
returned as data (`ObjectReference` / `WriteRequest`) so that theorems can
speak about which BACnet object a method touches.  JavaScript property
access on a missing key, which yields `undefined` and makes the next
dereference throw a TypeError, is modelled with `Option` and an explicit
`DzkError.typeError`.
-/

namespace Dzk

/-- A BACnet object reference: object-type tag and instance number.
Modelled from the spec: `objectStringParser` lives in src/bacnet/parser.ts,
which is not part of the sources given; the spec (§3, §6, Glossary) describes
an object reference as a protocol object type plus an instance number,
parsed from directory strings such as "AV:1". -/
structure ObjectReference where
  typ : String
  inst : Nat
deriving DecidableEq, Repr

/-- Split a character list at the first colon. -/
def splitColon : List Char → List Char × List Char
  | [] => ([], [])
  | c :: cs =>
    if c = ':' then ([], cs)
    else
      let p := splitColon cs
      (c :: p.1, p.2)

/-- Decimal digits to a natural number. -/
def digitsToNat (cs : List Char) : Nat :=
  cs.foldl (fun n c => n * 10 + (c.toNat - 48)) 0

/-- Modelled from the spec: `objectStringParser` (src/bacnet/parser.ts, not in
the given sources) turns a directory string such as "AI:0" into an object
reference (type tag before the colon, instance number after it). -/
def objectStringParser (s : String) : ObjectReference :=
  let p := splitColon s.data
  ⟨String.mk p.1, digitsToNat p.2⟩

/-- One entry of the static BACnet object directory:
object string `n`, description `d`, access mode `rw`. -/
structure DzkBacObject where
  n : String
  d : String
  rw : String
deriving DecidableEq, Repr

/-- A transport-level failure (network/protocol error or timeout) raised by
asyncReadPresentValue / asyncWritePresentValue. -/
inductive TransportError
  | timeout
  | protocolReject
deriving DecidableEq, Repr

/-- An error raised synchronously inside the zone layer.  The only such error
the code can produce is a JavaScript TypeError from dereferencing
`undefined` (missing directory scope or key); no UnknownObjectError or
AccessDeniedError exists anywhere in the source. -/
inductive DzkError
  | typeError
deriving DecidableEq, Repr

/-- A write request issued to the transport: target object and value. -/
structure WriteRequest where
  ref : ObjectReference
  value : ℚ
deriving DecidableEq, Repr

/-! ### HAP characteristic constants (copied classes, lines 44-83) -/

def TemperatureDisplayUnits.CELSIUS : Int := 0

def TemperatureDisplayUnits.FAHRENHEIT : Int := 1

def CurrentHeatingCoolingState.OFF : Int := 0

def CurrentHeatingCoolingState.HEAT : Int := 1

def CurrentHeatingCoolingState.COOL : Int := 2

def TargetHeatingCoolingState.OFF : Int := 0

def TargetHeatingCoolingState.HEAT : Int := 1

def TargetHeatingCoolingState.COOL : Int := 2

def TargetHeatingCoolingState.AUTO : Int := 3

def CurrentFanState.INACTIVE : Int := 0

def CurrentFanState.IDLE : Int := 1

def CurrentFanState.BLOWING_AIR : Int := 2

def TargetFanState.MANUAL : Int := 0

def TargetFanState.AUTO : Int := 1

/-! ### DzkOperationMode (lines 554-559) -/

def DzkOperationMode.AUTO : Int := 1

def DzkOperationMode.COOL : Int := 2

def DzkOperationMode.HEAT : Int := 3

def DzkOperationMode.DRY : Int := 4

/-! ### Unit conversion (lines 91-99) -/

/-- `f2c`: Fahrenheit to Celsius. -/
def f2c (ff : ℚ) : ℚ := (ff - 32) * 5 / 9

/-- `c2f`: Celsius to Fahrenheit. -/
def c2f (cc : ℚ) : ℚ := cc * 9 / 5 + 32

/-! ### The static object directory `DzkZone.dzk_objects` (lines 581-790),
embedded as association lists keyed by the semantic object name. -/

def dzk_objects_global : List (String × DzkBacObject) :=
  [("iu-status-onoff", ⟨"BI:0", "IU Status ON/OFF", "R"⟩),
   ("dzk-system-input-alarm", ⟨"BI:1", "DZK system input alarm", "R"⟩),
   ("dzk-global-fan", ⟨"BV:0", "DZK Global Fan", "R"⟩),
   ("dzk-aux-heat1", ⟨"BV:1", "DZK Aux Heat1", "R"⟩),
   ("dzk-aux-heat2", ⟨"BV:2", "DZK Aux Heat2", "R"⟩),
   ("dzk-bacnet-communication-error",
     ⟨"BV:27", "DZK/BACnet Interface communication error", "R"⟩),
   ("iu-speed", ⟨"MI:0", "IU speed", "R"⟩),
   ("iu-errors", ⟨"MI:1", "IU errors", "R"⟩),
   ("dzk-error", ⟨"MI:2", "DZK error", "R"⟩),
   ("dzk-operation-mode", ⟨"MO:0", "DZK operation mode", "R/W"⟩),
   ("dzk-user-mode", ⟨"MO:1", "DZK user mode", "R/W"⟩),
   ("iu-set-point", ⟨"AV:0", "IU Set Point", " R/W"⟩),
   ("dzk-address", ⟨"AV:13", "DZK address (DK AirNet address)", "R"⟩),
   ("dzk-group-address", ⟨"AV:14", "DZK group address (DK group address)", "R"⟩)]

def dzk_objects_zone1 : List (String × DzkBacObject) :=
  [("onoff", ⟨"BV:3", "Z1 ON/OFF", "R/W"⟩),
   ("local-ventilation", ⟨"BV:4", "Z1 Local Ventilation", "R/W"⟩),
   ("vacation-override", ⟨"BV:5", "Z1 Vacation override", "R"⟩),
   ("unoccupied-override", ⟨"BV:6", "Z1 Unoccupied override", "R"⟩),
   ("room-temperature", ⟨"AI:0", "Z1 Room temperature", "R"⟩),
   ("heat-set-point", ⟨"AV:1", "Z1 Heat Set Point", "R/W"⟩),
   ("cold-set-point", ⟨"AV:2", "Z1 Cold Set Point", "R/W"⟩),
   ("humidity", ⟨"AV:33", "Z1 humidity", "R"⟩),
   ("cooling-demand", ⟨"AV:15", "Z1 cooling demand (%)", "R"⟩),
   ("heating-demand", ⟨"AV:16", "Z1 heating demand (%)", "R"⟩),
   ("aux-heating-demand-(%)", ⟨"AV:17", "Z1 aux heating demand (%)", "R"⟩),
   ("opening-step-damper", ⟨"MV:0", "Z1 opening step damper", "R"⟩)]

def dzk_objects_zone2 : List (String × DzkBacObject) :=
  [("onoff", ⟨"BV:7", "Z2 ON/OFF", "R/W"⟩),
   ("local-ventilation", ⟨"BV:8", "Z2 Local ventilation", "R/W"⟩),
   ("vacation-override", ⟨"BV:9", "Z2 Vacation override", "R"⟩),
   ("unoccupied-override", ⟨"BV:10", "Z2 Unoccupied override", "R"⟩),
   ("room-temperature", ⟨"AI:1", "Z2 Room temperature", "R"⟩),
   ("heat-set-point", ⟨"AV:3", "Z2 Heat Set Point", "R/W"⟩),
   ("cold-set-point", ⟨"AV:4", "Z2 Cold Set Point", "R/W"⟩),
   ("cooling-demand", ⟨"AV:18", "Z2 cooling demand (%)", "R"⟩),
   ("heating-demand", ⟨"AV:19", "Z2 heating demand (%)", "R"⟩),
   ("aux-heating-demand", ⟨"AV:20", "Z2 aux heating demand (%)", "R"⟩),
   ("humidity", ⟨"AV:34", "Z2 humidity", "R"⟩),
   ("opening-step-damper", ⟨"MV:1", "Z2 opening step damper", "R"⟩)]

def dzk_objects_zone3 : List (String × DzkBacObject) :=
  [("onoff", ⟨"BV:11", "Z3 ON/OFF", "R/W"⟩),
   ("local-ventilation", ⟨"BV:12", "Z3 Local ventilation", "R/W"⟩),
   ("vacation-override", ⟨"BV:13", "Z3 Vacation override", "R"⟩),
   ("unoccupied-override", ⟨"BV:14", "Z3 Unoccupied override", "R"⟩),
   ("room-temperature", ⟨"AI:2", "Z3 Room temperature", "R"⟩),
   ("heat-set-point", ⟨"AV:5", "Z3 Heat Set Point", "R/W"⟩),
   ("cold-set-point", ⟨"AV:6", "Z3 Cold Set Point", "R/W"⟩),
   ("cooling-demand", ⟨"AV:21", "Z3 cooling demand (%)", "R"⟩),
   ("heating-demand", ⟨"AV:22", "Z3 heating demand (%)", "R"⟩),
   ("aux-heating-demand", ⟨"AV:23", "Z3 aux heating demand (%)", "R"⟩),
   ("humidity", ⟨"AV:35", "Z3 humidity", "R"⟩),
   ("opening-step-damper", ⟨"MV:2", "Z3 opening step damper", "R"⟩)]

def dzk_objects_zone4 : List (String × DzkBacObject) :=
  [("onoff", ⟨"BV:15", "Z4 ON/OFF", "R/W"⟩),
   ("local-ventilation", ⟨"BV:16", "Z4 Local ventilation", "R/W"⟩),
   ("vacation-override", ⟨"BV:17", "Z4 Vacation override", "R"⟩),
   ("unoccupied-override", ⟨"BV:18", "Z4 Unoccupied override", "R"⟩),
   ("room-temperature", ⟨"AI:3", "Z4 Room temperature", "R"⟩),
   ("heat-set-point", ⟨"AV:7", "Z4 Heat Set Point", "R/W"⟩),
   ("cold-set-point", ⟨"AV:8", "Z4 Cold Set Point", "R/W"⟩),
   ("cooling-demand", ⟨"AV:24", "Z4 cooling demand (%)", "R"⟩),
   ("heating-demand", ⟨"AV:25", "Z4 heating demand (%)", "R"⟩),
   ("aux-heating-demand", ⟨"AV:26", "Z4 aux heating demand (%)", "R"⟩),
   ("humidity", ⟨"AV:36", "Z4 humidity", "R"⟩),
   ("opening-step-damper", ⟨"MV:3", "Z4 opening step damper", "R"⟩)]

def dzk_objects_zone5 : List (String × DzkBacObject) :=
  [("onoff", ⟨"BV:19", "Z5 ON/OFF", "R/W"⟩),
   ("local-ventilation", ⟨"BV:20", "Z5 Local ventilation", "R/W"⟩),
   ("vacation-override", ⟨"BV:21", "Z5 Vacation override", "R"⟩),
   ("unoccupied-override", ⟨"BV:22", "Z5 Unoccupied override", "R"⟩),
   ("room-temperature", ⟨"AI:4", "Z5 Room temperature", " R"⟩),
   ("heat-set-point", ⟨"AV:9", "Z5 Heat Set Point", "R/W"⟩),
   ("cold-set-point", ⟨"AV:10", "Z5 Cold Set Point", "R/W"⟩),
   ("cooling-demand", ⟨"AV:27", "Z5 cooling demand (%)", "R"⟩),
   ("heating-demand", ⟨"AV:28", "Z5 heating demand (%)", "R"⟩),
   ("aux-heating-demand", ⟨"AV:29", "Z5 aux heating demand (%)", "R"⟩),
   ("humidity", ⟨"AV:37", "Z5 humidity", "R"⟩),
   ("opening-step-damper", ⟨"MV:4", "Z5 opening step damper", "R"⟩)]

def dzk_objects_zone6 : List (String × DzkBacObject) :=
  [("onoff", ⟨"BV:23", "Z6 ON/OFF", "R/W"⟩),
   ("local-ventilation", ⟨"BV:24", "Z6 Local ventilation", "R/W"⟩),
   ("vacation-override", ⟨"BV:25", "Z6 Vacation override", "R"⟩),
   ("unoccupied-override", ⟨"BV:26", "Z6 Unoccupied override", "R"⟩),
   ("room-temperature", ⟨"AI:5", "Z6 Room temperature", " R"⟩),
   ("heat-set-point", ⟨"AV:11", "Z6 Heat Set Point", "R/W"⟩),
   ("cold-set-point", ⟨"AV:12", "Z6 Cold Set Point", "R/W"⟩),
   ("cooling-demand", ⟨"AV:30", "Z6 cooling demand (%)", "R"⟩),
   ("heating-demand", ⟨"AV:31", "Z6 heating demand (%)", "R"⟩),
   ("aux-heating-demand", ⟨"AV:32", "Z6 aux heating demand (%)", "R"⟩),
   ("humidity", ⟨"AV:38", "Z6 humidity", "R"⟩),
   ("opening-step-damper", ⟨"MV:5", "Z6 opening step damper", "R"⟩)]

/-- JavaScript property access `obj[key]` on the directory records:
`some` entry when the key is present, `none` (undefined) otherwise. -/
def dirLookup (d : List (String × DzkBacObject)) (k : String) : Option DzkBacObject :=
  (d.find? (fun p => p.1 == k)).map Prod.snd

/-- The constructor's scope selection `DzkZone.dzk_objects["zone" + zno]`
(line 795): defined for the keys zone1..zone6, undefined for any other
zone number. -/
def dzk_objects_zone (zno : Int) : Option (List (String × DzkBacObject)) :=
  if zno = 1 then some dzk_objects_zone1
  else if zno = 2 then some dzk_objects_zone2
  else if zno = 3 then some dzk_objects_zone3
  else if zno = 4 then some dzk_objects_zone4
  else if zno = 5 then some dzk_objects_zone5
  else if zno = 6 then some dzk_objects_zone6
  else none

/-! ### DzkZone methods (lines 793-990).

A zone's state relevant to the claims is its directory scope `dzkob`
(possibly undefined) and its `lastDemand` accumulator; the shared statics
are `DzkZone.ipAddress` and `DzkZone.dzk_opmode`. -/

/-- The directory binding performed by the DzkZone constructor
(line 795): `this.dzkob = DzkZone.dzk_objects["zone" + zno]`.  Indexing a
missing property yields `undefined` (here `none`) — it does not throw, so
construction itself always completes. -/
structure DzkZoneState where
  dzkob : Option (List (String × DzkBacObject))
deriving Repr

/-- `new DzkZone(log, zno)` restricted to its synchronous, zone-scoped part:
the only zone-directory operation the constructor performs is the property
access of line 795, which cannot throw. -/
def dzkZoneConstruct (zno : Int) : DzkZoneState :=
  ⟨dzk_objects_zone zno⟩

/-- `DzkZone.getZonePv` (lines 810-813), up to the transport boundary: the
object reference the method hands to `asyncReadPresentValue`.  When `dzkob`
is undefined (out-of-range zone) or the key is absent, `this.dzkob[id]["n"]`
throws a TypeError before any network operation. -/
def getZonePv (dzkob : Option (List (String × DzkBacObject))) (id : String) :
    Except DzkError ObjectReference :=
  match dzkob with
  | none => .error .typeError
  | some d =>
    match dirLookup d id with
    | none => .error .typeError
    | some ob => .ok (objectStringParser ob.n)

/-- `DzkZone.setZonePv` (lines 814-817), up to the transport boundary: the
write request the method hands to `asyncWritePresentValue`.  The method
parses the directory entry and issues the write unconditionally — no
access-mode (`rw`) check appears anywhere on the path. -/
def setZonePv (dzkob : Option (List (String × DzkBacObject))) (id : String)
    (val : ℚ) : Except DzkError WriteRequest :=
  match dzkob with
  | none => .error .typeError
  | some d =>
    match dirLookup d id with
    | none => .error .typeError
    | some ob => .ok ⟨objectStringParser ob.n, val⟩

/-- `DzkZone.getCurrentHeatingCoolingState` (lines 818-842), given the two
demand readings `hd = heating-demand` and `cd = cooling-demand` and the
current `lastDemand`: returns the HAP current state and the new
`lastDemand`.  The predicate is the bitwise or of the source. -/
def getCurrentHeatingCoolingState (hd cd lastDemand : ℚ) : Int × ℚ :=
  let pred : Nat := Nat.lor (if cd > 0 then 2 else 0) (if hd > 0 then 1 else 0)
  let lastDemand' : ℚ := if hd > 0 ∨ cd > 0 then hd - cd else lastDemand
  let rv : Int :=
    match pred with
    | 0 => 0
    | 1 => 1
    | 2 => 2
    | _ => 0
  (rv, lastDemand')

/-- `DzkZone.getTargetHeatingCoolingState` (lines 843-848), with the
transport outcome for the global `dzk-operation-mode` read passed in:
returns the method's own result and the new shared `DzkZone.dzk_opmode`.
The method has no try/catch, so a transport failure propagates (the
returned promise rejects) and leaves `dzk_opmode` unchanged. -/
def zoneGetTargetHeatingCoolingState (opmode : Int)
    (net : Except TransportError Int) : Except TransportError Int × Int :=
  match net with
  | .ok v => (.ok v, v)
  | .error e => (.error e, opmode)

/-- Outcome of the DzkZone constructor's eager first global-mode fetch
(lines 798-800): the shared `dzk_opmode` afterwards, whether the
constructor ran to completion, and the rejection (if any) of the
fire-and-forget promise, which no caller awaits or catches. -/
structure EagerFetchOutcome where
  opmode : Int
  constructed : Bool
  unhandledRejection : Option TransportError
deriving DecidableEq, Repr

/-- The constructor's conditional eager fetch (lines 798-800):
`if (DzkZone.dzk_opmode == -1) this.getTargetHeatingCoolingState();`.
The call is not awaited and not guarded by any try/catch — neither here nor
inside `getTargetHeatingCoolingState` — so a transport error becomes an
unhandled promise rejection; the constructor itself performs no synchronous
throwing operation on this path and always completes. -/
def dzkZoneConstructorFetch (opmode : Int) (net : Except TransportError Int) :
    EagerFetchOutcome :=
  if opmode = -1 then
    match net with
    | .ok v => ⟨v, true, none⟩
    | .error e => ⟨opmode, true, some e⟩
  else ⟨opmode, true, none⟩

/-- The guarded assignment of the shared static `DzkZone.ipAddress`
performed by each DzkZoneAccessory construction (lines 173-176):
`if (DzkZone.ipAddress == "") DzkZone.ipAddress = dzkconfig["ipAddress"]`. -/
def setIpAddressOnce (cur cfg : String) : String :=
  if cur = "" then cfg else cur

/-- The `bac_ob` key computed by the switch of
`DzkZone.getTargetTemperature` (lines 906-922): initialized to the empty
string and only assigned for the four known operation modes. -/
def getTargetTemperature_bac_ob (opmode : Int) (lastDemand : ℚ) : String :=
  if opmode = DzkOperationMode.AUTO ∨ opmode = DzkOperationMode.DRY then
    if lastDemand > 0 then "heat-set-point" else "cold-set-point"
  else if opmode = DzkOperationMode.COOL then "cold-set-point"
  else if opmode = DzkOperationMode.HEAT then "heat-set-point"
  else ""

/-- `DzkZone.getTargetTemperature` (lines 905-924) up to the transport
boundary: selects `bac_ob` and calls `getZonePv(bac_ob)`; a missing
directory entry for the selected key makes the call throw before any
network read. -/
def getTargetTemperature (dzkob : Option (List (String × DzkBacObject)))
    (opmode : Int) (lastDemand : ℚ) : Except DzkError ObjectReference :=
  getZonePv dzkob (getTargetTemperature_bac_ob opmode lastDemand)

/-- The key `DzkZone.setTargetTemperature` (lines 925-947) actually passes
to `setZonePv`.  The method computes `bac_ob` with the same switch as the
getter but never uses it: the call site of line 944 re-inlines only the
`lastDemand > 0` test, so the selection ignores the operation mode. -/
def setTargetTemperature_key (opmode : Int) (lastDemand : ℚ) : String :=
  let _bac_ob := getTargetTemperature_bac_ob opmode lastDemand
  if lastDemand > 0 then "heat-set-point" else "cold-set-point"

/-- `DzkZone.setTargetTemperature` up to the transport boundary: the write
request issued for the new temperature. -/
def setTargetTemperature (dzkob : Option (List (String × DzkBacObject)))
    (opmode : Int) (lastDemand newTemp : ℚ) : Except DzkError WriteRequest :=
  setZonePv dzkob (setTargetTemperature_key opmode lastDemand) newTemp

/-- `DzkZone.to_hap_target_heatcool_state` (lines 949-967). -/
def to_hap_target_heatcool_state (dzk : Int) : Int :=
  if dzk = DzkOperationMode.AUTO then TargetHeatingCoolingState.AUTO
  else if dzk = DzkOperationMode.COOL then TargetHeatingCoolingState.COOL
  else if dzk = DzkOperationMode.HEAT then TargetHeatingCoolingState.HEAT
  else if dzk = DzkOperationMode.DRY then TargetHeatingCoolingState.COOL
  else 0

/-- `DzkZone.to_hap_fanstate` (lines 969-971). -/
def to_hap_fanstate (dzk : Int) : Int :=
  if dzk = 0 then CurrentFanState.INACTIVE else CurrentFanState.BLOWING_AIR

/-- `DzkZone.from_hap_target_heatcool_state` (lines 973-990). -/
def from_hap_target_heatcool_state (hap : Int) : Int :=
  if hap = TargetHeatingCoolingState.HEAT then DzkOperationMode.HEAT
  else if hap = TargetHeatingCoolingState.COOL then DzkOperationMode.COOL
  else if hap = TargetHeatingCoolingState.AUTO then DzkOperationMode.AUTO
  else if hap = TargetHeatingCoolingState.OFF then DzkOperationMode.AUTO
  else DzkOperationMode.AUTO

/-! ### DzkZoneAccessory (lines 136-552): cached internal state and the
stale-read-then-refresh getter pattern. -/

/-- The cached per-zone internal state (lines 139-149). -/
structure InternalStates where
  currentHeatingCoolingState : Int
  targetHeatingCoolingState : Int
  currentTemperature : ℚ
  currentFanState : Int
  coolSetpoint : ℚ
  heatSetpoint : ℚ
  targetTemperature : ℚ
  relativeHumidity : ℚ
  temperatureDisplayUnits : Int
deriving DecidableEq, Repr

/-- The constructor-supplied defaults of `internalStates` (lines 139-149):
20.5, 23.5, 21.5, 22.0, 42.2 as rationals. -/
def internalStates_default : InternalStates :=
  { currentHeatingCoolingState := CurrentHeatingCoolingState.OFF
    targetHeatingCoolingState := TargetHeatingCoolingState.OFF
    currentTemperature := 41 / 2
    currentFanState := 0
    coolSetpoint := 47 / 2
    heatSetpoint := 43 / 2
    targetTemperature := 22
    relativeHumidity := 211 / 5
    temperatureDisplayUnits := TemperatureDisplayUnits.FAHRENHEIT }

/-- The homebridge callback invocation `callback(err, value)`: the error
slot and the delivered value. -/
structure CallbackResult where
  err : Option TransportError
  value : Option ℚ
deriving DecidableEq, Repr

/-- `DzkZoneAccessory.getCurrentTemperature` (lines 320-337).  The callback
is invoked with the cached value before the awaited zone read resolves, so
its argument depends only on the pre-refresh cache; the transport outcome
`net` is the eventual result of `this.dzkz.getCurrentTemperature()`
(`values[0].value` already extracted).  On success the cache becomes
`f2c` of the read value; on failure the catch block logs and leaves the
cache untouched, and the error never reaches the callback. -/
def accessoryGetCurrentTemperature (cache : ℚ)
    (net : Except TransportError ℚ) : CallbackResult × ℚ :=
  (⟨none, some cache⟩,
   match net with
   | .ok v => f2c v
   | .error _ => cache)

/-- `DzkZoneAccessory.getCurrentRelativeHumidity` (lines 365-380): same
stale-read pattern, without unit conversion. -/
def accessoryGetCurrentRelativeHumidity (cache : ℚ)
    (net : Except TransportError ℚ) : CallbackResult × ℚ :=
  (⟨none, some cache⟩,
   match net with
   | .ok v => v
   | .error _ => cache)

/-! ## Theorems -/

/-- Once the shared ipAddress is non-empty, any further sequence of guarded
assignments leaves it unchanged. -/
theorem setIpAddressOnce_foldl_fixed (cfgs : List String) (cur : String)
    (h : cur ≠ "") : List.foldl setIpAddressOnce cur cfgs = cur := by
  induction cfgs with
  | nil => rfl
  | cons c cs ih => simpa [setIpAddressOnce, h] using ih

/-- C1: for nonnegative demand readings, getCurrentHeatingCoolingState maps
(0,0) to OFF, heating-only to HEAT, cooling-only to COOL and simultaneous
demand to OFF, and updates lastDemand to heating − cooling exactly when at
least one demand is nonzero, leaving it unchanged when both are zero. -/
theorem claim_C1_current_state_from_demands (hd cd ld : ℚ)
    (hhd : 0 ≤ hd) (hcd : 0 ≤ cd) :
    getCurrentHeatingCoolingState hd cd ld =
      ((if hd = 0 ∧ cd = 0 then 0
        else if 0 < hd ∧ cd = 0 then 1
        else if 0 < cd ∧ hd = 0 then 2
        else 0 : Int),
       if hd = 0 ∧ cd = 0 then ld else hd - cd) := by
  by_cases hp : hd > 0 <;> by_cases cp : cd > 0
  · have hne : ¬(hd = 0 ∧ cd = 0) := by rintro ⟨h, -⟩; exact absurd h hp.ne'
    simp [getCurrentHeatingCoolingState, hp, cp, hp.ne', cp.ne', hne]
  · have hcd0 : cd = 0 := le_antisymm (not_lt.mp cp) hcd
    subst hcd0
    simp [getCurrentHeatingCoolingState, hp, hp.ne']
  · have hhd0 : hd = 0 := le_antisymm (not_lt.mp hp) hhd
    subst hhd0
    simp [getCurrentHeatingCoolingState, cp, cp.ne']
  · have hcd0 : cd = 0 := le_antisymm (not_lt.mp cp) hcd
    have hhd0 : hd = 0 := le_antisymm (not_lt.mp hp) hhd
    subst hcd0; subst hhd0
    simp [getCurrentHeatingCoolingState]

/-- C1 witness: heating demand 15, cooling demand 0, previous lastDemand 3
yields HEAT and lastDemand 15. -/
theorem claim_C1_witness :
    ((0:ℚ) ≤ 15 ∧ (0:ℚ) ≤ 0) ∧ getCurrentHeatingCoolingState 15 0 3 = (1, 15) := by
  refine ⟨⟨by norm_num, le_refl 0⟩, ?_⟩
  rw [claim_C1_current_state_from_demands 15 0 3 (by norm_num) (le_refl 0)]
  norm_num

/-- C2: getTargetTemperature selects the heat-set-point under global mode
HEAT and the cold-set-point under COOL regardless of lastDemand, and under
AUTO or DRY selects by the sign of lastDemand (heat when positive, cold
when non-positive, including the initial 0); on zone 1 the HEAT and COOL
selections read the AV:1 and AV:2 objects. -/
theorem claim_C2_get_target_temperature_selection (ld : ℚ) :
    getTargetTemperature_bac_ob DzkOperationMode.HEAT ld = "heat-set-point"
    ∧ getTargetTemperature_bac_ob DzkOperationMode.COOL ld = "cold-set-point"
    ∧ getTargetTemperature_bac_ob DzkOperationMode.AUTO ld =
        (if 0 < ld then "heat-set-point" else "cold-set-point")
    ∧ getTargetTemperature_bac_ob DzkOperationMode.DRY ld =
        (if 0 < ld then "heat-set-point" else "cold-set-point")
    ∧ getTargetTemperature (some dzk_objects_zone1) DzkOperationMode.HEAT ld =
        .ok ⟨"AV", 1⟩
    ∧ getTargetTemperature (some dzk_objects_zone1) DzkOperationMode.COOL ld =
        .ok ⟨"AV", 2⟩ := by
  have hheat : getTargetTemperature_bac_ob DzkOperationMode.HEAT ld =
      "heat-set-point" := by
    norm_num [getTargetTemperature_bac_ob, DzkOperationMode.AUTO,
      DzkOperationMode.DRY, DzkOperationMode.COOL, DzkOperationMode.HEAT]
  have hcool : getTargetTemperature_bac_ob DzkOperationMode.COOL ld =
      "cold-set-point" := by
    norm_num [getTargetTemperature_bac_ob, DzkOperationMode.AUTO,
      DzkOperationMode.DRY, DzkOperationMode.COOL, DzkOperationMode.HEAT]
  refine ⟨hheat, hcool, ?_, ?_, ?_, ?_⟩
  · simp only [getTargetTemperature_bac_ob, DzkOperationMode.AUTO, DzkOperationMode.DRY]
    norm_num [gt_iff_lt]
  · simp only [getTargetTemperature_bac_ob, DzkOperationMode.AUTO, DzkOperationMode.DRY]
    norm_num [gt_iff_lt]
  · simp only [getTargetTemperature, hheat]; rfl
  · simp only [getTargetTemperature, hcool]; rfl

/-- C3 (code bug): under global mode HEAT with lastDemand = 0, the getter
reads the heat-set-point (zone 1: AV:1) but the setter writes the
cold-set-point (zone 1: AV:2): the call site of setTargetTemperature keys
only on lastDemand > 0 and ignores the mode-aware bac_ob it computed. -/
theorem claim_C3_setter_diverges_from_getter :
    getTargetTemperature (some dzk_objects_zone1) DzkOperationMode.HEAT 0 =
      .ok ⟨"AV", 1⟩
    ∧ getTargetTemperature_bac_ob DzkOperationMode.HEAT 0 = "heat-set-point"
    ∧ setTargetTemperature (some dzk_objects_zone1) DzkOperationMode.HEAT 0 72 =
        .ok ⟨⟨"AV", 2⟩, 72⟩
    ∧ setTargetTemperature_key DzkOperationMode.HEAT 0 = "cold-set-point" := by
  have hb : getTargetTemperature_bac_ob DzkOperationMode.HEAT 0 =
      "heat-set-point" := by
    norm_num [getTargetTemperature_bac_ob, DzkOperationMode.AUTO,
      DzkOperationMode.DRY, DzkOperationMode.COOL, DzkOperationMode.HEAT]
  have hk : setTargetTemperature_key DzkOperationMode.HEAT 0 =
      "cold-set-point" := by
    norm_num [setTargetTemperature_key]
  refine ⟨?_, hb, ?_, hk⟩
  · simp only [getTargetTemperature, hb]; rfl
  · simp only [setTargetTemperature, hk]; rfl

/-- C4: the accessory getter always hands the callback the pre-refresh
cached value with an empty error slot; a successful refresh installs the
converted read value into the cache (returned by the next call), a failed
refresh leaves the cache unchanged; the first call serves the
constructor-supplied default 20.5. -/
theorem claim_C4_stale_read_refresh (cache v : ℚ) (e : TransportError)
    (net net2 : Except TransportError ℚ) :
    accessoryGetCurrentTemperature cache (.ok v) = (⟨none, some cache⟩, f2c v)
    ∧ accessoryGetCurrentTemperature cache (.error e) = (⟨none, some cache⟩, cache)
    ∧ (accessoryGetCurrentTemperature internalStates_default.currentTemperature
        net).1.value = some (41 / 2)
    ∧ (accessoryGetCurrentTemperature
        (accessoryGetCurrentTemperature cache (.ok v)).2 net2).1.value = some (f2c v)
    ∧ accessoryGetCurrentRelativeHumidity cache (.ok v) = (⟨none, some cache⟩, v)
    ∧ accessoryGetCurrentRelativeHumidity cache (.error e) =
        (⟨none, some cache⟩, cache) :=
  ⟨rfl, rfl, rfl, rfl, rfl, rfl⟩

/-- C5: both target-mode translations are total with outputs in the
respective mode ranges, and the device modes round-trip through to_hap then
from_hap for AUTO, COOL and HEAT, while DRY comes back as COOL. -/
theorem claim_C5_target_mode_roundtrip :
    (∀ n : Int, to_hap_target_heatcool_state n = 0 ∨ to_hap_target_heatcool_state n = 1
      ∨ to_hap_target_heatcool_state n = 2 ∨ to_hap_target_heatcool_state n = 3)
    ∧ (∀ n : Int, from_hap_target_heatcool_state n = 1
      ∨ from_hap_target_heatcool_state n = 2 ∨ from_hap_target_heatcool_state n = 3)
    ∧ from_hap_target_heatcool_state (to_hap_target_heatcool_state
        DzkOperationMode.AUTO) = DzkOperationMode.AUTO
    ∧ from_hap_target_heatcool_state (to_hap_target_heatcool_state
        DzkOperationMode.COOL) = DzkOperationMode.COOL
    ∧ from_hap_target_heatcool_state (to_hap_target_heatcool_state
        DzkOperationMode.HEAT) = DzkOperationMode.HEAT
    ∧ from_hap_target_heatcool_state (to_hap_target_heatcool_state
        DzkOperationMode.DRY) = DzkOperationMode.COOL := by
  refine ⟨?_, ?_, by decide, by decide, by decide, by decide⟩
  · intro n
    unfold to_hap_target_heatcool_state
    split_ifs <;> simp [TargetHeatingCoolingState.AUTO, TargetHeatingCoolingState.COOL,
      TargetHeatingCoolingState.HEAT, TargetHeatingCoolingState.OFF]
  · intro n
    unfold from_hap_target_heatcool_state
    split_ifs <;> simp [DzkOperationMode.AUTO, DzkOperationMode.COOL,
      DzkOperationMode.HEAT]

/-- C6: the shared device address is set exactly once: an assignment
against the empty shared address installs the configured address, an
assignment against a non-empty one is ignored, and over any sequence of
constructions starting from the empty address the first configured address
wins. -/
theorem claim_C6_ip_address_set_once :
    (∀ cfg : String, setIpAddressOnce "" cfg = cfg)
    ∧ (∀ cur cfg : String, cur ≠ "" → setIpAddressOnce cur cfg = cur)
    ∧ (∀ cfg : String, ∀ rest : List String, cfg ≠ "" →
        List.foldl setIpAddressOnce "" (cfg :: rest) = cfg) := by
  refine ⟨fun cfg => rfl, fun cur cfg h => by simp [setIpAddressOnce, h], ?_⟩
  intro cfg rest h
  simpa [setIpAddressOnce] using setIpAddressOnce_foldl_fixed rest cfg h

/-- C6 witness: over the construction sequence with configured addresses
"10.0.0.2", "10.0.0.3", "" the shared address ends as the first one. -/
theorem claim_C6_witness :
    "10.0.0.2" ≠ "" ∧
    List.foldl setIpAddressOnce "" ["10.0.0.2", "10.0.0.3", ""] = "10.0.0.2" :=
  ⟨by decide, claim_C6_ip_address_set_once.2.2 "10.0.0.2" ["10.0.0.3", ""] (by decide)⟩

/-- C7 counterexample: a transport error during the eager first global-mode
fetch is NOT caught anywhere — the fire-and-forget promise's rejection
escapes unhandled (the constructor neither awaits nor guards the call and
DzkZone.getTargetHeatingCoolingState has no try/catch). -/
theorem claim_C7_counterexample :
    (dzkZoneConstructorFetch (-1) (.error .timeout)).unhandledRejection =
      some .timeout := rfl

/-- C7 amended: a failing eager first fetch leaves the shared mode at the
-1 sentinel and lets construction complete, with the rejection unhandled; a
succeeding fetch installs the read mode; a later refresh behaves likewise:
failure keeps the sentinel, success installs the mode. -/
theorem claim_C7_eager_fetch_amended (e : TransportError) (v : Int) :
    dzkZoneConstructorFetch (-1) (.error e) = ⟨-1, true, some e⟩
    ∧ dzkZoneConstructorFetch (-1) (.ok v) = ⟨v, true, none⟩
    ∧ zoneGetTargetHeatingCoolingState (-1) (.error e) = (.error e, -1)
    ∧ zoneGetTargetHeatingCoolingState (-1) (.ok v) = (.ok v, v) :=
  ⟨rfl, rfl, rfl, rfl⟩

/-- C8 counterexample: constructing zone 7 does not fail — the scope lookup
yields undefined and construction completes; the failure surfaces only at
the first per-zone present-value operation, as a TypeError (no
UnknownObjectError exists in the code). -/
theorem claim_C8_counterexample :
    (dzkZoneConstruct 7).dzkob = none
    ∧ getZonePv (dzkZoneConstruct 7).dzkob "room-temperature" =
        .error .typeError :=
  ⟨rfl, rfl⟩

/-- C8 amended: for every zone number outside 1..6 construction still
completes, binding an undefined scope, and every subsequent per-zone read
throws a TypeError; for zone numbers in 1..6 construction binds the proper
per-zone scope. -/
theorem claim_C8_zone_range_amended :
    (∀ zno : Int, zno < 1 ∨ 6 < zno →
      (dzkZoneConstruct zno).dzkob = none ∧
      ∀ id : String, getZonePv (dzkZoneConstruct zno).dzkob id = .error .typeError)
    ∧ (∀ zno : Int, 1 ≤ zno → zno ≤ 6 →
      (dzkZoneConstruct zno).dzkob = dzk_objects_zone zno ∧
      (dzk_objects_zone zno).isSome = true) := by
  constructor
  · intro zno h
    have hz : dzk_objects_zone zno = none := by
      unfold dzk_objects_zone
      split_ifs <;> first | rfl | omega
    refine ⟨hz, fun id => ?_⟩
    simp only [dzkZoneConstruct, hz, getZonePv]
  · intro zno h1 h6
    interval_cases zno <;> exact ⟨rfl, rfl⟩

/-- C8 witness: zone 7 construction completes with an undefined scope whose
reads throw, zone 3 construction binds a present scope. -/
theorem claim_C8_witness :
    ((7:Int) < 1 ∨ 6 < (7:Int))
    ∧ ((dzkZoneConstruct 7).dzkob = none
        ∧ getZonePv (dzkZoneConstruct 7).dzkob "humidity" = .error .typeError)
    ∧ (1 ≤ (3:Int) ∧ (3:Int) ≤ 6)
    ∧ ((dzkZoneConstruct 3).dzkob = dzk_objects_zone 3
        ∧ (dzk_objects_zone 3).isSome = true) := by
  refine ⟨by norm_num, ⟨(claim_C8_zone_range_amended.1 7 (by norm_num)).1,
    (claim_C8_zone_range_amended.1 7 (by norm_num)).2 "humidity"⟩, by norm_num,
    claim_C8_zone_range_amended.2 3 (by norm_num) (by norm_num)⟩

/-- C9 counterexample: zone 1 room-temperature is a read-only directory
entry (rw = "R"), yet setZonePv issues the transport write for it — there
is no access-mode guard and no AccessDeniedError in the code. -/
theorem claim_C9_counterexample :
    dirLookup dzk_objects_zone1 "room-temperature" =
      some ⟨"AI:0", "Z1 Room temperature", "R"⟩
    ∧ setZonePv (some dzk_objects_zone1) "room-temperature" 72 =
        .ok ⟨⟨"AI", 0⟩, 72⟩ :=
  ⟨rfl, rfl⟩

/-- C9 amended: for every directory entry, read-only or not, setZonePv
parses the entry and issues the transport write unconditionally; the access
mode recorded in the directory is never consulted. -/
theorem claim_C9_no_access_guard_amended (d : List (String × DzkBacObject))
    (id : String) (ob : DzkBacObject) (val : ℚ)
    (h : dirLookup d id = some ob) :
    setZonePv (some d) id val = .ok ⟨objectStringParser ob.n, val⟩ := by
  simp [setZonePv, h]

/-- C9 witness: the write against the read-only zone 1 humidity entry
(AV:33) is issued to the transport. -/
theorem claim_C9_witness :
    dirLookup dzk_objects_zone1 "humidity" = some ⟨"AV:33", "Z1 humidity", "R"⟩
    ∧ setZonePv (some dzk_objects_zone1) "humidity" 50 = .ok ⟨⟨"AV", 33⟩, 50⟩ :=
  ⟨rfl, claim_C9_no_access_guard_amended dzk_objects_zone1 "humidity"
    ⟨"AV:33", "Z1 humidity", "R"⟩ 50 rfl⟩

/-- C10: with the shared operation mode outside the four device modes
1..4 — in particular the initial sentinel -1 — getTargetTemperature selects
the empty-string key, which is absent from every zone scope, so the call
throws before reading any setpoint. -/
theorem claim_C10_unknown_mode_throws (opmode : Int) (ld : ℚ)
    (h1 : opmode ≠ 1) (h2 : opmode ≠ 2) (h3 : opmode ≠ 3) (h4 : opmode ≠ 4) :
    getTargetTemperature_bac_ob opmode ld = ""
    ∧ ∀ d ∈ [dzk_objects_zone1, dzk_objects_zone2, dzk_objects_zone3,
        dzk_objects_zone4, dzk_objects_zone5, dzk_objects_zone6],
        dirLookup d "" = none ∧
        getTargetTemperature (some d) opmode ld = .error .typeError := by
  have hkey : getTargetTemperature_bac_ob opmode ld = "" := by
    simp [getTargetTemperature_bac_ob, DzkOperationMode.AUTO, DzkOperationMode.DRY,
      DzkOperationMode.COOL, DzkOperationMode.HEAT, h1, h2, h3, h4]
  refine ⟨hkey, ?_⟩
  intro d hd
  fin_cases hd <;> exact ⟨by decide, by simp only [getTargetTemperature, hkey]; rfl⟩

/-- C10 witness: with the initial sentinel -1 and lastDemand 0, the
selected key is empty, zone 1 has no entry for it, and the call throws. -/
theorem claim_C10_witness :
    ((-1 : Int) ≠ 1 ∧ (-1 : Int) ≠ 2 ∧ (-1 : Int) ≠ 3 ∧ (-1 : Int) ≠ 4)
    ∧ getTargetTemperature_bac_ob (-1) 0 = ""
    ∧ dirLookup dzk_objects_zone1 "" = none
    ∧ getTargetTemperature (some dzk_objects_zone1) (-1) 0 =
        .error .typeError := by
  have h := claim_C10_unknown_mode_throws (-1) 0 (by norm_num) (by norm_num)
    (by norm_num) (by norm_num)
  exact ⟨⟨by norm_num, by norm_num, by norm_num, by norm_num⟩, h.1,
    (h.2 dzk_objects_zone1 (by simp)).1, (h.2 dzk_objects_zone1 (by simp)).2⟩

end Dzk
